import Mathlib

/-
A shallow embedding of the grammar-driven parsing engine in
src/svg-parser/syntax-string-parser.ts.

The TypeScript file is executed as JavaScript, and two of its internal calls
pass their arguments out of line with the declared 5-parameter
TokenValidationProcessor signature:

  * the RegExp branch calls PROCESS_REGEX(syntaxString, tokenType,
    currentIndex, tokenValidator) - the cursor lands in the validator
    parameter (a number, which fails the instanceof RegExp test) and the
    fifth parameter (currentIndex) is undefined;
  * the options branch calls optionProcessor(syntaxString, currentIndex, t) -
    the cursor lands in the tokenType parameter, and both grammarMap and
    currentIndex are undefined inside the processor.

The embedding therefore models the JavaScript value domain explicitly:
numeric slots carry an integer, NaN, or undefined (JNum); the tokenType slot
carries a string or a number (JTag); results are false, a truthy value (an
AST node or a raw array), an uncaught TypeError, or fuel exhaustion standing
for a non-terminating computation (JSOut).  JavaScript arithmetic on these
slots follows the language: undefined + 1 = NaN, NaN + 1 = NaN, and any
ordering comparison against NaN or undefined is false.

Regular expressions: every RegExp in this repository is a single-character
class (for example a digit class or a single literal character), so a
terminal pattern is modelled as the list of characters it accepts, and the
unanchored JavaScript String.match used by PROCESS_REGEX is modelled as the
earliest character of the sliced input that belongs to the class.

Recursion is modelled with explicit fuel: every recursive call consumes one
unit, and a result of spin means the computation did not finish within the
given fuel.  A computation that returns spin at every fuel is one that does
not terminate.
-/

/-- A JavaScript numeric slot: an integer, NaN, or undefined. -/
inductive JNum where
  | int : Int → JNum
  | nan : JNum
  | undef : JNum
deriving DecidableEq, Repr

/-- JavaScript x + 1 on a numeric slot: undefined + 1 = NaN, NaN + 1 = NaN. -/
def jnAdd1 : JNum → JNum
  | JNum.int n => JNum.int (n + 1)
  | _ => JNum.nan

/-- JavaScript x - 1 on a numeric slot: undefined - 1 = NaN, NaN - 1 = NaN. -/
def jnSub1 : JNum → JNum
  | JNum.int n => JNum.int (n - 1)
  | _ => JNum.nan

/-- JavaScript addition of two numeric slots. -/
def jnAdd : JNum → JNum → JNum
  | JNum.int a, JNum.int b => JNum.int (a + b)
  | _, _ => JNum.nan

/-- JavaScript a >= b on numeric slots: any comparison involving NaN or
undefined is false. -/
def jsGE : JNum → JNum → Bool
  | JNum.int a, JNum.int b => decide (b ≤ a)
  | _, _ => false

/-- The tokenType slot: a string in well-typed calls, a number in the
misaligned optionProcessor call, undefined deeper inside it. -/
inductive JTag where
  | str : String → JTag
  | num : JNum → JTag
deriving DecidableEq, Repr

/-- enum TokenProcessorOptionTypes from the source. -/
inductive TokenProcessorOptionTypes where
  | ZERO_OR_MORE
  | ONE_OR_MORE
  | ZERO_OR_ONE
deriving DecidableEq, Repr

/-- type TokenValidator from the source: a RegExp terminal (modelled as the
character class it accepts), a rule name, a quantified validator
(TokenValidatorOptionsConfig), or an array of validators. -/
inductive TokenValidator where
  | regex : List Char → TokenValidator
  | rule : String → TokenValidator
  | cfg : TokenValidator → TokenProcessorOptionTypes → TokenValidator
  | seq : List TokenValidator → TokenValidator

/-- BaseGrammarMapType from the source: each rule name maps to its ordered
list of alternative validators (the options field of its descriptor). -/
abbrev GrammarMap := List (String × List TokenValidator)

/-- Property lookup grammarMap[name]: the descriptor of the first matching
key, or none (JavaScript undefined) when the rule is absent. -/
def lookupRule (name : String) : GrammarMap → Option (List TokenValidator)
  | [] => none
  | (k, options) :: rest => if k = name then some options else lookupRule name rest

/-- type Grammar from the source: an entry rule name and the rule map. -/
structure Grammar where
  entry : String
  map : GrammarMap

/-- A JavaScript runtime value that can sit in an AST position: an AST node
(startIndex, endIndex, tokenType, value), a raw array (what the sequence
branch returns), a string, or undefined.  The value field of a node is again
such a value. -/
inductive JItem where
  | node : JNum → JNum → JTag → JItem → JItem
  | arr : List JItem → JItem
  | strv : String → JItem
  | undefv : JItem

/-- Property access v.endIndex: the endIndex field of a node, undefined on an
array, a string, or undefined (they have no such property). -/
def JItem.endIndexJ : JItem → JNum
  | JItem.node _ e _ _ => e
  | _ => JNum.undef

/-- The span invariant endIndex >= startIndex - 1 evaluated the JavaScript
way on a node: false whenever either index is NaN or undefined. -/
def nodeSpanOK : JItem → Bool
  | JItem.node s e _ _ => jsGE e (jnSub1 s)
  | _ => false

/-- The runtime outcome of a token-validation processor: false, a truthy
value (node or raw array), an uncaught TypeError, or fuel exhaustion (spin)
standing for a computation that has not finished. -/
inductive JSOut where
  | fval
  | item : JItem → JSOut
  | throwTE
  | spin

/-- The outcome of the while-true collection loop shared by the ZERO_OR_MORE
and ONE_OR_MORE processors: the collected results and the final cursor, or a
propagated TypeError, or fuel exhaustion. -/
inductive LoopOut where
  | done : List JItem → JNum → LoopOut
  | throwTE
  | spin

/-- An argument slot of PROCESS_REGEX that the misaligned call can fill with
either a validator or a number. -/
inductive JSArg where
  | val : TokenValidator → JSArg
  | num : JNum → JSArg

/-- JavaScript String.slice with a start index that may be an integer
(negative counts from the end), NaN, or undefined (both treated as 0). -/
def jsSlice (s : String) : JNum → String
  | JNum.int n => if n < 0 then s.drop (((s.length : Int) + n).toNat) else s.drop n.toNat
  | _ => s

/-- PROCESS_REGEX from the source (lines 46-70).  The instanceof RegExp test
succeeds only when the tokenValidator argument really is a RegExp; the
misaligned call site passes the cursor (a number) there, which fails the
test.  String.match with a plain character class is unanchored: it finds the
earliest character of the sliced string that the class accepts. -/
def PROCESS_REGEX (syntaxString : String) (tokenType : JTag) (tokenValidator : JSArg)
    (_grammarMap : JSArg) (currentIndex : JNum) : JSOut :=
  match tokenValidator with
  | JSArg.val (TokenValidator.regex cls) =>
    let stringFromIndex := jsSlice syntaxString currentIndex
    match stringFromIndex.toList.find? (fun c => cls.contains c) with
    | some c =>
      let consumedString := String.singleton c
      JSOut.item (JItem.node currentIndex
        (jnAdd currentIndex (JNum.int ((consumedString.length : Int) - 1)))
        tokenType (JItem.strv consumedString))
    | none => JSOut.fval
  | _ => JSOut.fval

mutual

/-- processTokenValidator from the source (lines 195-263), with fuel.  The
four branches follow the source: an array matches every member at the same
currentIndex (the TODO at line 207 marks the missing increment) and returns
the raw result list; the RegExp branch calls PROCESS_REGEX with
(tokenType, currentIndex, tokenValidator) in place of
(tokenValidator, grammarMap, currentIndex) and wraps a truthy result by
destructuring fields (consumedString, newCurrentIndex) that do not exist on
it; the options branch calls the option processor with only three arguments
and wraps its result the same way; the string branch looks the rule up
(TypeError when the map is undefined or the rule is absent) and tries the
alternatives in order with the rule name as the new tokenType. -/
def processTokenValidator : Nat → String → JTag → TokenValidator → Option GrammarMap → JNum → JSOut
  | 0, _, _, _, _, _ => JSOut.spin
  | fuel + 1, syntaxString, tokenType, tokenValidator, grammarMap, currentIndex =>
    match tokenValidator with
    | TokenValidator.seq ts =>
      processSeq fuel syntaxString tokenType ts grammarMap currentIndex []
    | TokenValidator.regex cls =>
      match PROCESS_REGEX syntaxString tokenType (JSArg.num currentIndex)
          (JSArg.val (TokenValidator.regex cls)) JNum.undef with
      | JSOut.item _ =>
        JSOut.item (JItem.node currentIndex (jnSub1 JNum.undef) tokenType JItem.undefv)
      | _ => JSOut.fval
    | TokenValidator.cfg t opt =>
      match (match opt with
        | TokenProcessorOptionTypes.ZERO_OR_MORE =>
          zeroOrMoreProcessor fuel syntaxString (JTag.num currentIndex) t none JNum.undef
        | TokenProcessorOptionTypes.ONE_OR_MORE =>
          oneOrMoreProcessor fuel syntaxString (JTag.num currentIndex) t none JNum.undef
        | TokenProcessorOptionTypes.ZERO_OR_ONE =>
          zeroOrOneProcessor fuel syntaxString (JTag.num currentIndex) t none JNum.undef) with
      | JSOut.item _ =>
        JSOut.item (JItem.node currentIndex (jnSub1 JNum.undef) tokenType JItem.undefv)
      | JSOut.fval => JSOut.fval
      | JSOut.throwTE => JSOut.throwTE
      | JSOut.spin => JSOut.spin
    | TokenValidator.rule name =>
      match grammarMap with
      | none => JSOut.throwTE
      | some m =>
        match lookupRule name m with
        | none => JSOut.throwTE
        | some options => tryOptions fuel syntaxString name options m currentIndex

/-- The array branch of processTokenValidator (lines 202-217): every member
is matched at the same currentIndex, a falsy member result fails the whole
sequence, and on success the raw accumulated array is returned (not an AST
node). -/
def processSeq : Nat → String → JTag → List TokenValidator → Option GrammarMap → JNum → List JItem → JSOut
  | 0, _, _, _, _, _, _ => JSOut.spin
  | fuel + 1, syntaxString, tokenType, ts, grammarMap, currentIndex, resultList =>
    match ts with
    | [] => JSOut.item (JItem.arr resultList)
    | t :: rest =>
      match processTokenValidator fuel syntaxString tokenType t grammarMap currentIndex with
      | JSOut.fval => JSOut.fval
      | JSOut.item it =>
        processSeq fuel syntaxString tokenType rest grammarMap currentIndex (resultList ++ [it])
      | JSOut.throwTE => JSOut.throwTE
      | JSOut.spin => JSOut.spin

/-- The while-true loop shared verbatim by the ZERO_OR_MORE (lines 83-95) and
ONE_OR_MORE (lines 123-135) processors: repeatedly match, push each truthy
result, and advance the cursor to resultAst.endIndex + 1 (undefined on a raw
array, so the cursor becomes NaN there). -/
def quantLoop : Nat → String → JTag → TokenValidator → Option GrammarMap → JNum → List JItem → LoopOut
  | 0, _, _, _, _, _, _ => LoopOut.spin
  | fuel + 1, syntaxString, tokenType, tokenValidator, grammarMap, latestCurrentIndex, results =>
    match processTokenValidator fuel syntaxString tokenType tokenValidator grammarMap latestCurrentIndex with
    | JSOut.fval => LoopOut.done results latestCurrentIndex
    | JSOut.item resultAst =>
      quantLoop fuel syntaxString tokenType tokenValidator grammarMap
        (jnAdd1 (JItem.endIndexJ resultAst)) (results ++ [resultAst])
    | JSOut.throwTE => LoopOut.throwTE
    | JSOut.spin => LoopOut.spin

/-- The ZERO_OR_MORE processor (lines 72-111): run the loop; a non-empty
result list yields a node from currentIndex to latestCurrentIndex - 1 whose
value is the list; an empty list yields the always-valid empty result, a node
with startIndex = endIndex = currentIndex and an empty-string value. -/
def zeroOrMoreProcessor : Nat → String → JTag → TokenValidator → Option GrammarMap → JNum → JSOut
  | 0, _, _, _, _, _ => JSOut.spin
  | fuel + 1, syntaxString, tokenType, tokenValidator, grammarMap, currentIndex =>
    match quantLoop fuel syntaxString tokenType tokenValidator grammarMap currentIndex [] with
    | LoopOut.done results latest =>
      if results.isEmpty then
        JSOut.item (JItem.node currentIndex currentIndex tokenType (JItem.strv ""))
      else
        JSOut.item (JItem.node currentIndex (jnSub1 latest) tokenType (JItem.arr results))
    | LoopOut.throwTE => JSOut.throwTE
    | LoopOut.spin => JSOut.spin

/-- The ONE_OR_MORE processor (lines 112-146): identical loop, but an empty
result list returns false. -/
def oneOrMoreProcessor : Nat → String → JTag → TokenValidator → Option GrammarMap → JNum → JSOut
  | 0, _, _, _, _, _ => JSOut.spin
  | fuel + 1, syntaxString, tokenType, tokenValidator, grammarMap, currentIndex =>
    match quantLoop fuel syntaxString tokenType tokenValidator grammarMap currentIndex [] with
    | LoopOut.done results latest =>
      if results.isEmpty then
        JSOut.fval
      else
        JSOut.item (JItem.node currentIndex (jnSub1 latest) tokenType (JItem.arr results))
    | LoopOut.throwTE => JSOut.throwTE
    | LoopOut.spin => JSOut.spin

/-- The ZERO_OR_ONE processor (lines 147-192): attempt the inner validator at
most twice.  No first result: the empty result (startIndex = endIndex =
currentIndex, empty-string value).  One result: that result as is.  A second
truthy result: tooManyResults, so false. -/
def zeroOrOneProcessor : Nat → String → JTag → TokenValidator → Option GrammarMap → JNum → JSOut
  | 0, _, _, _, _, _ => JSOut.spin
  | fuel + 1, syntaxString, tokenType, tokenValidator, grammarMap, currentIndex =>
    match processTokenValidator fuel syntaxString tokenType tokenValidator grammarMap currentIndex with
    | JSOut.fval => JSOut.item (JItem.node currentIndex currentIndex tokenType (JItem.strv ""))
    | JSOut.item singleResult =>
      match processTokenValidator fuel syntaxString tokenType tokenValidator grammarMap
          (jnAdd1 (JItem.endIndexJ singleResult)) with
      | JSOut.fval => JSOut.item singleResult
      | JSOut.item _ => JSOut.fval
      | JSOut.throwTE => JSOut.throwTE
      | JSOut.spin => JSOut.spin
    | JSOut.throwTE => JSOut.throwTE
    | JSOut.spin => JSOut.spin

/-- The for-loop of the string branch (lines 252-259): try each alternative
in listed order at the same cursor, with the referenced rule name as the new
tokenType, and return the first truthy result. -/
def tryOptions : Nat → String → String → List TokenValidator → GrammarMap → JNum → JSOut
  | 0, _, _, _, _, _ => JSOut.spin
  | fuel + 1, syntaxString, name, options, grammarMap, currentIndex =>
    match options with
    | [] => JSOut.fval
    | t :: rest =>
      match processTokenValidator fuel syntaxString (JTag.str name) t (some grammarMap) currentIndex with
      | JSOut.fval => tryOptions fuel syntaxString name rest grammarMap currentIndex
      | JSOut.item it => JSOut.item it
      | JSOut.throwTE => JSOut.throwTE
      | JSOut.spin => JSOut.spin

end

/-- The option-processor map TOKEN_VALIDATOR_OPTION_PROCESSORS (lines 71-193),
dispatching on the option key. -/
def TOKEN_VALIDATOR_OPTION_PROCESSORS : TokenProcessorOptionTypes → Nat → String → JTag → TokenValidator → Option GrammarMap → JNum → JSOut
  | TokenProcessorOptionTypes.ZERO_OR_MORE => zeroOrMoreProcessor
  | TokenProcessorOptionTypes.ONE_OR_MORE => oneOrMoreProcessor
  | TokenProcessorOptionTypes.ZERO_OR_ONE => zeroOrOneProcessor

/-- parseSyntaxString from the source (lines 265-269): run the engine on the
entry rule at cursor 0. -/
def parseSyntaxString (fuel : Nat) (syntaxString : String) (grammar : Grammar) : JSOut :=
  processTokenValidator fuel syntaxString (JTag.str grammar.entry)
    (TokenValidator.rule grammar.entry) (some grammar.map) (JNum.int 0)

/-- The computation diverges: it exhausts every fuel budget without
producing a result. -/
def DivergesOn (syntaxString : String) (tokenType : JTag) (tokenValidator : TokenValidator)
    (grammarMap : Option GrammarMap) (currentIndex : JNum) : Prop :=
  ∀ fuel, processTokenValidator fuel syntaxString tokenType tokenValidator grammarMap currentIndex = JSOut.spin

/-- The digit character class, the model of the repository regex for a digit. -/
def digitClass : List Char := ['0','1','2','3','4','5','6','7','8','9']

/-- A quantified terminal: the validator written as a value-and-option config
around a single-character terminal.  Matched through the engine it always
yields a truthy wrapper node (the inner terminal fails, the processor returns
the always-valid empty result, and the options branch wraps it). -/
def innerStar : TokenValidator :=
  TokenValidator.cfg (TokenValidator.regex ['x']) TokenProcessorOptionTypes.ZERO_OR_MORE

/-- A quantifier directly nested inside a quantifier: the shape on which the
repetition loop never terminates. -/
def vLoop : TokenValidator := TokenValidator.cfg innerStar TokenProcessorOptionTypes.ZERO_OR_MORE

/-- With at least four units of fuel, matching the quantified terminal
innerStar yields the wrapper node: startIndex is the cursor, endIndex is
undefined - 1 = NaN, and the value is undefined. -/
theorem innerStar_big (n : Nat) (s : String) (ty : JTag) (map : Option GrammarMap) (j : JNum) :
    processTokenValidator (n + 1 + 1 + 1 + 1) s ty innerStar map j =
    JSOut.item (JItem.node j JNum.nan ty JItem.undefv) := by
  simp [processTokenValidator, zeroOrMoreProcessor, quantLoop, PROCESS_REGEX, innerStar, jnSub1]

/-- Matching innerStar either runs out of fuel or yields the wrapper node:
it never returns false and never throws. -/
theorem innerStar_eval (g : Nat) (s : String) (ty : JTag) (map : Option GrammarMap) (j : JNum) :
    processTokenValidator g s ty innerStar map j = JSOut.spin ∨
    processTokenValidator g s ty innerStar map j =
      JSOut.item (JItem.node j JNum.nan ty JItem.undefv) := by
  rcases g with _ | g
  · exact Or.inl rfl
  rcases g with _ | g
  · exact Or.inl rfl
  rcases g with _ | g
  · exact Or.inl rfl
  rcases g with _ | g
  · exact Or.inl rfl
  · exact Or.inr (innerStar_big g s ty map j)

/-- The repetition loop over innerStar exhausts any fuel: each attempt is
truthy and the cursor never reaches a failing position. -/
theorem quantLoop_innerStar_spin (fuel : Nat) :
    ∀ (s : String) (ty : JTag) (j : JNum) (acc : List JItem),
      quantLoop fuel s ty innerStar none j acc = LoopOut.spin := by
  induction fuel with
  | zero => intro s ty j acc; rfl
  | succ f ih =>
    intro s ty j acc
    rcases innerStar_eval f s ty none j with h | h <;> simp [quantLoop, h, ih]

/-- The while-true loop only ever appends to the result list it was given. -/
theorem quantLoop_done_extends (fuel : Nat) :
    ∀ (s : String) (ty : JTag) (v : TokenValidator) (map : Option GrammarMap) (j : JNum)
      (acc results : List JItem) (latest : JNum),
      quantLoop fuel s ty v map j acc = LoopOut.done results latest →
      ∃ tail, results = acc ++ tail := by
  induction fuel with
  | zero =>
    intro s ty v map j acc results latest h
    simp [quantLoop] at h
  | succ f ih =>
    intro s ty v map j acc results latest h
    cases hp : processTokenValidator f s ty v map j with
    | fval =>
      simp [quantLoop, hp] at h
      exact ⟨[], by simp [h.1.symm]⟩
    | item it =>
      simp only [quantLoop, hp] at h
      obtain ⟨tail, htail⟩ := ih s ty v map (jnAdd1 (JItem.endIndexJ it)) (acc ++ [it]) results latest h
      exact ⟨[it] ++ tail, by simp [htail]⟩
    | throwTE => simp [quantLoop, hp] at h
    | spin => simp [quantLoop, hp] at h

/-- A truthy result of the options branch is always the wrapper node:
startIndex is the cursor, endIndex is NaN, the tag is the passed tokenType,
and the value is undefined. -/
theorem cfg_item_shape (fuel : Nat) (s : String) (ty : JTag) (t0 : TokenValidator)
    (o : TokenProcessorOptionTypes) (map : Option GrammarMap) (i : JNum) (it : JItem)
    (h : processTokenValidator fuel s ty (TokenValidator.cfg t0 o) map i = JSOut.item it) :
    it = JItem.node i JNum.nan ty JItem.undefv := by
  rcases fuel with _ | f
  · simp [processTokenValidator] at h
  · rcases o with _ | _ | _
    · cases hq : zeroOrMoreProcessor f s (JTag.num i) t0 none JNum.undef <;>
        simp [processTokenValidator, hq, jnSub1] at h
      exact h.symm
    · cases hq : oneOrMoreProcessor f s (JTag.num i) t0 none JNum.undef <;>
        simp [processTokenValidator, hq, jnSub1] at h
      exact h.symm
    · cases hq : zeroOrOneProcessor f s (JTag.num i) t0 none JNum.undef <;>
        simp [processTokenValidator, hq, jnSub1] at h
      exact h.symm

/-- C1: the claim says each sequence member is matched starting at the
previous member's endIndex + 1 and that a successful sequence yields a single
node whose value is the member list.  In the code every member is matched at
the original currentIndex (the TODO at line 207 marks the missing increment)
and the result is the raw array of member results: here a two-member sequence
of quantified terminals over the input "ab" produces two member results that
both start at index 0, and no enclosing node. -/
theorem c1_sequence_members_share_cursor :
    processTokenValidator 9 "ab" (JTag.str "S")
      (TokenValidator.seq
        [TokenValidator.cfg (TokenValidator.regex ['a']) TokenProcessorOptionTypes.ZERO_OR_MORE,
         TokenValidator.cfg (TokenValidator.regex ['b']) TokenProcessorOptionTypes.ZERO_OR_MORE])
      (some []) (JNum.int 0) =
    JSOut.item (JItem.arr
      [JItem.node (JNum.int 0) JNum.nan (JTag.str "S") JItem.undefv,
       JItem.node (JNum.int 0) JNum.nan (JTag.str "S") JItem.undefv]) := rfl

/-- C2: the claim says a terminal match succeeds if and only if the pattern
matches exactly at the cursor.  Both directions fail on the code: PROCESS_REGEX,
called with its declared arguments, matches a digit class against "a5" at
cursor 0 by searching ahead (it finds the digit at index 1 and reports value
"5" with a span at index 0, where the input reads "a"); and inside
processTokenValidator the RegExp branch never succeeds at all, even on the
input "5" whose first character the class matches at the cursor, because the
call to PROCESS_REGEX passes the cursor in the validator position. -/
theorem c2_terminal_unanchored_and_dead_branch :
    PROCESS_REGEX "a5" (JTag.str "digit") (JSArg.val (TokenValidator.regex digitClass))
      (JSArg.num (JNum.int 0)) (JNum.int 0) =
      JSOut.item (JItem.node (JNum.int 0) (JNum.int 0) (JTag.str "digit") (JItem.strv "5")) ∧
    processTokenValidator 2 "5" (JTag.str "digit") (TokenValidator.regex digitClass)
      (some []) (JNum.int 0) = JSOut.fval :=
  ⟨rfl, rfl⟩

/-- C3 counterexample: the claim says the ZeroOrOne quantifier never returns
Failure and that a first match is returned regardless of whether the inner
validator would match again.  Here the inner validator (a quantified
terminal, truthy at every cursor) matches at the cursor and again after it,
and the processor returns false. -/
theorem c3_counterexample :
    zeroOrOneProcessor 6 "zz" (JTag.str "Q")
      (TokenValidator.cfg (TokenValidator.regex ['y']) TokenProcessorOptionTypes.ZERO_OR_MORE)
      (some []) (JNum.int 1) = JSOut.fval := rfl

/-- C3: amended claim.  The ZeroOrOne processor attempts its inner validator
a second time after a first success, and returns Failure precisely when the
inner validator matches at the cursor and then matches again starting right
after the first match; in every other case it does not fail. -/
theorem c3_zero_or_one_fails_iff_double_match (fuel : Nat) (s : String) (ty : JTag)
    (v : TokenValidator) (map : Option GrammarMap) (i : JNum) :
    zeroOrOneProcessor (fuel + 1) s ty v map i = JSOut.fval ↔
      ∃ it it2, processTokenValidator fuel s ty v map i = JSOut.item it ∧
        processTokenValidator fuel s ty v map (jnAdd1 (JItem.endIndexJ it)) = JSOut.item it2 := by
  cases h1 : processTokenValidator fuel s ty v map i with
  | item it =>
    cases h2 : processTokenValidator fuel s ty v map (jnAdd1 (JItem.endIndexJ it)) with
    | item it2 => simp [zeroOrOneProcessor, h1, h2]
    | fval => simp [zeroOrOneProcessor, h1, h2]
    | throwTE => simp [zeroOrOneProcessor, h1, h2]
    | spin => simp [zeroOrOneProcessor, h1, h2]
  | fval => simp [zeroOrOneProcessor, h1]
  | throwTE => simp [zeroOrOneProcessor, h1]
  | spin => simp [zeroOrOneProcessor, h1]

/-- C4: for every inner validator, input, grammar, and cursor, the
ZERO_OR_MORE processor never returns the Failure value, and the ONE_OR_MORE
processor returns Failure exactly when the inner validator fails on the very
first attempt (the processor gets two extra units of fuel for its own entry
and for the loop entry, so the first loop attempt runs the inner validator at
the stated fuel). -/
theorem c4_zero_or_more_total_one_or_more_first_attempt (fuel : Nat) (s : String)
    (ty : JTag) (v : TokenValidator) (map : Option GrammarMap) (i : JNum) :
    zeroOrMoreProcessor fuel s ty v map i ≠ JSOut.fval ∧
    (oneOrMoreProcessor (fuel + 1 + 1) s ty v map i = JSOut.fval ↔
      processTokenValidator fuel s ty v map i = JSOut.fval) := by
  constructor
  · rcases fuel with _ | f
    · simp [zeroOrMoreProcessor]
    · cases h : quantLoop f s ty v map i [] with
      | done results latest =>
        cases hr : results.isEmpty <;> simp [zeroOrMoreProcessor, h, hr]
      | throwTE => simp [zeroOrMoreProcessor, h]
      | spin => simp [zeroOrMoreProcessor, h]
  · cases hp : processTokenValidator fuel s ty v map i with
    | fval => simp [oneOrMoreProcessor, quantLoop, hp]
    | item it =>
      cases hq : quantLoop fuel s ty v map (jnAdd1 (JItem.endIndexJ it)) [it] with
      | done results latest =>
        obtain ⟨tail, htail⟩ :=
          quantLoop_done_extends fuel s ty v map (jnAdd1 (JItem.endIndexJ it))
            [it] results latest hq
        subst htail
        simp [oneOrMoreProcessor, quantLoop, hp, hq]
      | throwTE => simp [oneOrMoreProcessor, quantLoop, hp, hq]
      | spin => simp [oneOrMoreProcessor, quantLoop, hp, hq]
    | throwTE => simp [oneOrMoreProcessor, quantLoop, hp]
    | spin => simp [oneOrMoreProcessor, quantLoop, hp]

/-- C5 counterexample: the claim says the zero-repetition result of
ZERO_OR_MORE is a zero-width node, endIndex = startIndex - 1, whose value is
an empty list.  At cursor 3 with an inner terminal that fails, the processor
returns a node with startIndex = endIndex = 3 (not 2) and an empty-string
value (not a list). -/
theorem c5_counterexample :
    zeroOrMoreProcessor 5 "7" (JTag.str "T") (TokenValidator.regex ['z']) (some [])
      (JNum.int 3) =
      JSOut.item (JItem.node (JNum.int 3) (JNum.int 3) (JTag.str "T") (JItem.strv "")) ∧
    JNum.int 3 ≠ jnSub1 (JNum.int 3) :=
  ⟨rfl, by decide⟩

/-- C5: amended claim.  When the inner validator fails on the first attempt,
the ZERO_OR_MORE processor succeeds with a node whose value is the empty
string and whose startIndex and endIndex both equal the original cursor. -/
theorem c5_zero_reps_empty_node (fuel : Nat) (s : String) (ty : JTag)
    (v : TokenValidator) (map : Option GrammarMap) (i : JNum)
    (h : processTokenValidator fuel s ty v map i = JSOut.fval) :
    zeroOrMoreProcessor (fuel + 1 + 1) s ty v map i =
      JSOut.item (JItem.node i i ty (JItem.strv "")) := by
  simp [zeroOrMoreProcessor, quantLoop, h]

/-- C5 witness: a concrete zero-repetition run through the amended theorem. -/
theorem c5_witness :
    zeroOrMoreProcessor (1 + 1 + 1) "7" (JTag.str "T") (TokenValidator.regex ['z'])
      (some []) (JNum.int 3) =
      JSOut.item (JItem.node (JNum.int 3) (JNum.int 3) (JTag.str "T") (JItem.strv "")) :=
  c5_zero_reps_empty_node 1 "7" (JTag.str "T") (TokenValidator.regex ['z']) (some [])
    (JNum.int 3) rfl

/-- A grammar in which rule n has the single alternative rule m, and rule m
has a quantified-terminal alternative that the engine accepts. -/
def chainMap : GrammarMap :=
  [("n", [TokenValidator.rule "m"]),
   ("m", [TokenValidator.cfg (TokenValidator.regex ['x']) TokenProcessorOptionTypes.ZERO_OR_MORE])]

/-- C6 counterexample: the claim says the node produced for a rule reference
is re-tagged with the referenced rule's name.  Resolving rule n, whose only
alternative is a reference to rule m, returns the node built inside m
unchanged: its tag is m, not n. -/
theorem c6_counterexample :
    processTokenValidator 9 "q" (JTag.str "root") (TokenValidator.rule "n")
      (some chainMap) (JNum.int 0) =
      JSOut.item (JItem.node (JNum.int 0) JNum.nan (JTag.str "m") JItem.undefv) ∧
    JTag.str "m" ≠ JTag.str "n" :=
  ⟨rfl, by decide⟩

/-- C6: amended claim.  A rule reference tries the referenced rule's
alternatives in listed order at the same cursor and returns the first truthy
result, never exploring later alternatives after a success; a node produced
directly by a quantified alternative is tagged with the referenced rule's
name, while an alternative that is itself a rule reference passes the inner
rule's node through unchanged, keeping the inner tag. -/
theorem c6_first_alternative_wins (fuel : Nat) (s : String) (ty : JTag) (n : String)
    (map : GrammarMap) (t : TokenValidator) (rest : List TokenValidator) (i : JNum)
    (it : JItem)
    (hlook : lookupRule n map = some (t :: rest))
    (hfirst : processTokenValidator fuel s (JTag.str n) t (some map) i = JSOut.item it) :
    processTokenValidator (fuel + 1 + 1) s ty (TokenValidator.rule n) (some map) i =
      JSOut.item it ∧
    (∀ t0 o, t = TokenValidator.cfg t0 o →
      it = JItem.node i JNum.nan (JTag.str n) JItem.undefv) := by
  constructor
  · simp [processTokenValidator, tryOptions, hlook, hfirst]
  · intro t0 o ht
    subst ht
    exact cfg_item_shape fuel s (JTag.str n) t0 o (some map) i it hfirst

/-- A one-rule grammar accepting a quantified terminal, for the C6 witness. -/
def oneRuleMap : GrammarMap :=
  [("w", [TokenValidator.cfg (TokenValidator.regex ['x']) TokenProcessorOptionTypes.ZERO_OR_MORE])]

/-- C6 witness: resolving rule w returns its first alternative's node, tagged
with w, through the amended theorem at a concrete input. -/
theorem c6_witness :
    processTokenValidator (4 + 1 + 1) "q" (JTag.str "R") (TokenValidator.rule "w")
      (some oneRuleMap) (JNum.int 0) =
      JSOut.item (JItem.node (JNum.int 0) JNum.nan (JTag.str "w") JItem.undefv) :=
  (c6_first_alternative_wins 4 "q" (JTag.str "R") "w" oneRuleMap
    (TokenValidator.cfg (TokenValidator.regex ['x']) TokenProcessorOptionTypes.ZERO_OR_MORE)
    [] (JNum.int 0) (JItem.node (JNum.int 0) JNum.nan (JTag.str "w") JItem.undefv)
    rfl rfl).1

/-- C7 counterexample: the claim says every parse terminates.  For the
validator vLoop (a quantifier whose inner validator is itself a quantifier,
hence truthy at every cursor without advancing it), the engine returns spin
at every fuel: the repetition loop never exits. -/
theorem c7_counterexample :
    DivergesOn "a" (JTag.str "T") vLoop (some []) (JNum.int 0) := by
  intro fuel
  rcases fuel with _ | f
  · rfl
  rcases f with _ | f2
  · rfl
  · simp [processTokenValidator, vLoop, zeroOrMoreProcessor, quantLoop_innerStar_spin]

/-- C7: amended claim.  Parse termination is not guaranteed: the repetition
loop of ZERO_OR_MORE and ONE_OR_MORE terminates, returning the results
accumulated so far, as soon as the inner validator fails at the current
cursor, but an inner validator that succeeds at every cursor (a quantifier
nested directly inside a quantifier) makes the loop run forever. -/
theorem c7_loop_stops_only_on_inner_failure :
    (∀ (fuel : Nat) (s : String) (ty : JTag) (v : TokenValidator)
       (map : Option GrammarMap) (i : JNum) (acc : List JItem),
       processTokenValidator fuel s ty v map i = JSOut.fval →
       quantLoop (fuel + 1) s ty v map i acc = LoopOut.done acc i) ∧
    DivergesOn "ax" (JTag.str "U") vLoop (some []) (JNum.int 0) := by
  constructor
  · intro fuel s ty v map i acc h
    simp [quantLoop, h]
  · intro fuel
    rcases fuel with _ | f
    · rfl
    rcases f with _ | f2
    · rfl
    · simp [processTokenValidator, vLoop, zeroOrMoreProcessor, quantLoop_innerStar_spin]

/-- C8: the claim says every node of every successful match satisfies
endIndex >= startIndex - 1.  The options branch builds its wrapper node by
destructuring fields that do not exist on the processor result, so its
endIndex is undefined - 1 = NaN, and the JavaScript comparison NaN >= -1 is
false: the node violates the invariant. -/
theorem c8_span_invariant_violated :
    processTokenValidator 5 "x" (JTag.str "T")
      (TokenValidator.cfg (TokenValidator.regex ['a']) TokenProcessorOptionTypes.ZERO_OR_MORE)
      (some []) (JNum.int 0) =
      JSOut.item (JItem.node (JNum.int 0) JNum.nan (JTag.str "T") JItem.undefv) ∧
    nodeSpanOK (JItem.node (JNum.int 0) JNum.nan (JTag.str "T") JItem.undefv) = false :=
  ⟨rfl, rfl⟩

/-- C9: a rule reference whose name is absent from the grammar map throws the
fatal lookup error (the TypeError of destructuring an undefined descriptor,
the condition the spec names UndefinedRuleError) instead of returning the
ordinary match Failure; the error propagates uncaught, since every branch of
the engine passes a thrown error through unchanged. -/
theorem c9_undefined_rule_throws (fuel : Nat) (s : String) (ty : JTag) (n : String)
    (map : GrammarMap) (i : JNum) (h : lookupRule n map = none) :
    processTokenValidator (fuel + 1) s ty (TokenValidator.rule n) (some map) i =
      JSOut.throwTE := by
  simp [processTokenValidator, h]

/-- C9 witness: looking up a rule name in an empty grammar map throws. -/
theorem c9_witness :
    processTokenValidator (2 + 1) "q" (JTag.str "R") (TokenValidator.rule "ghost")
      (some []) (JNum.int 0) = JSOut.throwTE :=
  c9_undefined_rule_throws 2 "q" (JTag.str "R") "ghost" [] (JNum.int 0) rfl

/-- C10: when the inner validator matches on the first attempt, the
ZERO_OR_MORE and ONE_OR_MORE processors return exactly equal results: they
run the identical collection loop and differ only in the zero-repetition
case, which cannot occur after a first success. -/
theorem c10_quantifiers_agree_on_success (fuel : Nat) (s : String) (ty : JTag)
    (v : TokenValidator) (map : Option GrammarMap) (i : JNum) (it : JItem)
    (h : processTokenValidator fuel s ty v map i = JSOut.item it) :
    zeroOrMoreProcessor (fuel + 1 + 1) s ty v map i =
      oneOrMoreProcessor (fuel + 1 + 1) s ty v map i := by
  cases hq : quantLoop fuel s ty v map (jnAdd1 (JItem.endIndexJ it)) [it] with
  | done results latest =>
    obtain ⟨tail, htail⟩ :=
      quantLoop_done_extends fuel s ty v map (jnAdd1 (JItem.endIndexJ it))
        [it] results latest hq
    subst htail
    simp [zeroOrMoreProcessor, oneOrMoreProcessor, quantLoop, h, hq]
  | throwTE => simp [zeroOrMoreProcessor, oneOrMoreProcessor, quantLoop, h, hq]
  | spin => simp [zeroOrMoreProcessor, oneOrMoreProcessor, quantLoop, h, hq]

/-- C10 witness: a concrete first-attempt success (a quantified terminal,
truthy through the options branch) on which both processors agree, through
the theorem. -/
theorem c10_witness :
    zeroOrMoreProcessor (4 + 1 + 1) "q" (JTag.str "T")
      (TokenValidator.cfg (TokenValidator.regex ['x']) TokenProcessorOptionTypes.ZERO_OR_MORE)
      (some []) (JNum.int 0) =
    oneOrMoreProcessor (4 + 1 + 1) "q" (JTag.str "T")
      (TokenValidator.cfg (TokenValidator.regex ['x']) TokenProcessorOptionTypes.ZERO_OR_MORE)
      (some []) (JNum.int 0) :=
  c10_quantifiers_agree_on_success 4 "q" (JTag.str "T")
    (TokenValidator.cfg (TokenValidator.regex ['x']) TokenProcessorOptionTypes.ZERO_OR_MORE)
    (some []) (JNum.int 0)
    (JItem.node (JNum.int 0) JNum.nan (JTag.str "T") JItem.undefv) rfl
